import Mathlib

/-!
# Web search / scrape forwarder

A shallow embedding of `internal/tools/jina/jina.go` (the forwarding client) and
`internal/server/websearch.go` (the `/search` and `/scrape` handlers), followed by the
properties proved about them.

Everything outside the two files is a parameter of the model:

* `World` stands for `net/http`: which targets `http.NewRequest` rejects, what
  `client.Do` answers for a request, and what `io.ReadAll` reads from the answer;
* `Decoder` stands for `encoding/json` as used by `c.BindJSON`: how a raw request body is
  decoded into the request record (an absent field leaves the Go zero value `""`).

Go's multiple return values `(ret string, err error)` are kept as two fields, so that the
value of `ret` on a failing path is visible.  The requests handed to `client.Do` and the
arguments with which the handlers invoke the client are recorded in ghost lists.
-/

namespace Fabric

/-! ## Go values -/

/-- Go `error` value: `leaf` is an error with a message, `wrap` is an error built by
`fmt.Errorf` with the `%w` verb, carrying its own message and the error it wraps. -/
inductive GoError where
  | leaf (msg : String)
  | wrap (msg : String) (inner : GoError)
  deriving DecidableEq, Repr

/-- Method `Error()` of a Go error. -/
def GoError.Error : GoError → String
  | .leaf msg => msg
  | .wrap msg _ => msg

/-- Function `errors.Unwrap`: the wrapped error, if there is one. -/
def GoError.Unwrap : GoError → Option GoError
  | .leaf _ => none
  | .wrap _ inner => some inner

/-- The formatting loop of `fmt` for the verbs this repository uses: `%s` (in `Sprintf`)
and `%w` (in `Errorf`) are replaced by the next operand, written out verbatim; `%%` is a
percent sign; a verb with no operand left prints `%!s(MISSING)`; every other character of
the format is copied.  Operands are never scanned for verbs.  Each format of the
repository holds exactly one verb and is given exactly one operand; other verbs, a
dangling percent sign and surplus operands do not occur and are not modelled (such
characters are copied, surplus operands are dropped). -/
def doPrintf : List Char → List String → List Char
  | [], _ => []
  | '%' :: '%' :: rest, args => '%' :: doPrintf rest args
  | '%' :: 's' :: rest, a :: args => a.data ++ doPrintf rest args
  | '%' :: 'w' :: rest, a :: args => a.data ++ doPrintf rest args
  | '%' :: 's' :: rest, [] => "%!s(MISSING)".data ++ doPrintf rest []
  | '%' :: 'w' :: rest, [] => "%!w(MISSING)".data ++ doPrintf rest []
  | c :: rest, args => c :: doPrintf rest args

/-- Function `fmt.Sprintf` applied to string operands. -/
def Sprintf (format : String) (args : List String) : String :=
  ⟨doPrintf format.data args⟩

/-- Function `fmt.Errorf` with one error operand under `%w`: the message is the format
with the operand's `Error()` text substituted, and the result wraps the operand. -/
def Errorf (format : String) (err : GoError) : GoError :=
  .wrap (Sprintf format [err.Error]) err

/-! ## `net/http` as seen by the client -/

/-- Type `http.Header`, as a list of key/value pairs with at most one value per key. -/
abbrev Header := List (String × String)

/-- Method `Header.Set`: replaces whatever the key held by the single value.  The only
key the client sets, `Authorization`, is already in canonical form. -/
def Header.Set (h : Header) (key value : String) : Header :=
  (key, value) :: h.filter (fun kv => kv.1 != key)

/-- Lookup of a header: `none` when the request does not carry it. -/
def Header.Lookup (h : Header) (key : String) : Option String :=
  (h.find? (fun kv => kv.1 == key)).map (fun kv => kv.2)

/-- The part of `http.Request` the client sets: the method, the target string given to
`http.NewRequest` (kept as given; the parsed form is not modelled) and the headers. -/
structure Request where
  Method : String
  URL : String
  Header : Header
  deriving DecidableEq, Repr

/-- The part of `http.Response` the client could look at: the status code, and what
`io.ReadAll(resp.Body)` yields (the bytes read, or a read error). -/
structure Response where
  StatusCode : Nat
  Body : Except GoError String

/-- The environment of the forwarding client. -/
structure World where
  /-- The error `http.NewRequest` reports for a target it cannot turn into a request. -/
  urlError : String → Option GoError
  /-- Method `(*http.Client).Do`: a response, or a transport error. -/
  Do : Request → Except GoError Response

/-- Function `http.NewRequest(method, url, nil)`: fails when the target is rejected,
otherwise a request for that target with no headers. -/
def NewRequest (w : World) (method url : String) : Except GoError Request :=
  match w.urlError url with
  | some err => .error err
  | none => .ok { Method := method, URL := url, Header := [] }

/-! ## `internal/tools/jina/jina.go` -/

/-- Type `plugins.SetupQuestion`, reduced to the field the client reads. -/
structure SetupQuestion where
  Value : String
  deriving DecidableEq, Repr

/-- Type `jina.Client`. -/
structure Client where
  ApiKey : SetupQuestion
  deriving DecidableEq, Repr

/-- The named results `(ret string, err error)` of a client call, with the ghost list of
the requests that were handed to `client.Do`. -/
structure Outcome where
  ret : String
  err : Option GoError
  sent : List Request
  deriving DecidableEq, Repr

/-- Function `requestWithApiKey`. -/
def requestWithApiKey (w : World) (requestURL apiKey : String) : Outcome :=
  match NewRequest w "GET" requestURL with
  | .error err =>
    { ret := "", err := some (Errorf "error creating request: %w" err), sent := [] }
  | .ok req =>
    -- if api keys exist, set the header
    let req : Request :=
      if apiKey != "" then
        { req with Header := req.Header.Set "Authorization" ("Bearer " ++ apiKey) }
      else req
    match w.Do req with
    | .error err =>
      { ret := "", err := some (Errorf "error sending request: %w" err), sent := [req] }
    | .ok resp =>
      match resp.Body with
      | .error err =>
        { ret := "", err := some (Errorf "error reading response body: %w" err),
          sent := [req] }
      | .ok body => { ret := body, err := none, sent := [req] }

/-- The request `requestWithApiKey` has built when it reaches `client.Do`: a `GET` for the
target, with the `Authorization` header set exactly when the key is not empty. -/
def outbound (requestURL apiKey : String) : Request :=
  let req : Request := { Method := "GET", URL := requestURL, Header := [] }
  if apiKey != "" then
    { req with Header := req.Header.Set "Authorization" ("Bearer " ++ apiKey) }
  else req

/-- Method `Client.request`: uses the client's default API key. -/
def Client.request (jc : Client) (w : World) (requestURL : String) : Outcome :=
  requestWithApiKey w requestURL jc.ApiKey.Value

/-- Method `Client.ScrapeURL`. -/
def Client.ScrapeURL (jc : Client) (w : World) (url : String) : Outcome :=
  jc.request w (Sprintf "https://r.jina.ai/%s" [url])

/-- Method `Client.ScrapeQuestion`. -/
def Client.ScrapeQuestion (jc : Client) (w : World) (question : String) : Outcome :=
  jc.request w (Sprintf "https://s.jina.ai/%s" [question])

/-- Function `ScrapeURLWithApiKey`. -/
def ScrapeURLWithApiKey (w : World) (url apiKey : String) : Outcome :=
  requestWithApiKey w (Sprintf "https://r.jina.ai/%s" [url]) apiKey

/-- Function `ScrapeQuestionWithApiKey`. -/
def ScrapeQuestionWithApiKey (w : World) (question apiKey : String) : Outcome :=
  requestWithApiKey w (Sprintf "https://s.jina.ai/%s" [question]) apiKey

/-! ## `internal/server/websearch.go` -/

/-- Type `SearchRequest`; the field is tagged `json:"question" binding:"required"`. -/
structure SearchRequest where
  Question : String
  deriving DecidableEq, Repr

/-- Type `SearchResponse`. -/
structure SearchResponse where
  Content : String
  Question : String
  deriving DecidableEq, Repr

/-- Type `ScrapeRequest`; the field is tagged `json:"url" binding:"required"`. -/
structure ScrapeRequest where
  URL : String
  deriving DecidableEq, Repr

/-- Type `ScrapeResponse`. -/
structure ScrapeResponse where
  Content : String
  URL : String
  deriving DecidableEq, Repr

/-- Type `core.PluginRegistry`, reduced to the plugin the handlers use. -/
structure PluginRegistry where
  Jina : Client
  deriving DecidableEq, Repr

/-- Type `WebSearchHandler`. -/
structure WebSearchHandler where
  registry : PluginRegistry
  deriving DecidableEq, Repr

/-- Status constants of `net/http`. -/
def StatusOK : Nat := 200

/-- Constant `http.StatusBadRequest`. -/
def StatusBadRequest : Nat := 400

/-- Constant `http.StatusInternalServerError`. -/
def StatusInternalServerError : Nat := 500

/-- The value handed to `c.JSON`: a `gin.H` map (as its key/value pairs) or one of the two
response records. -/
inductive Payload where
  | H (fields : List (String × String))
  | search (r : SearchResponse)
  | scrape (r : ScrapeResponse)
  deriving DecidableEq, Repr

/-- What `c.JSON(code, obj)` writes. -/
structure Reply where
  status : Nat
  body : Payload
  deriving DecidableEq, Repr

/-- The result of running a handler: the reply, with the ghost lists of the arguments the
client was invoked with and of the requests handed to `client.Do`. -/
structure Handled where
  reply : Reply
  invoked : List String
  sent : List Request
  deriving DecidableEq, Repr

/-- The JSON decoding step of `c.BindJSON`, for each request record.  A body in which the
field is absent decodes to the record with the zero value `""` in that field. -/
structure Decoder where
  UnmarshalSearch : String → Except GoError SearchRequest
  UnmarshalScrape : String → Except GoError ScrapeRequest

/-- The check gin's default validator runs for a string field tagged
`binding:"required"`: the field must not hold the zero value.  The handlers only test
the error against `nil`, so its text is not observable. -/
def validateRequired (structName fieldName value : String) : Option GoError :=
  if value == "" then
    some (.leaf ("Key: \x27" ++ structName ++ "." ++ fieldName ++
      "\x27 Error:Field validation for \x27" ++ fieldName ++
      "\x27 failed on the \x27required\x27 tag"))
  else none

/-- Call `c.BindJSON(&req)` for `req : SearchRequest`: decode the body, then validate the
`binding` tags of the record.  On an error gin has already set status 400, the status
the handler then writes with its own body. -/
def BindJSONSearch (d : Decoder) (body : String) : Except GoError SearchRequest :=
  match d.UnmarshalSearch body with
  | .error err => .error err
  | .ok req =>
    match validateRequired "SearchRequest" "Question" req.Question with
    | some err => .error err
    | none => .ok req

/-- Call `c.BindJSON(&req)` for `req : ScrapeRequest`. -/
def BindJSONScrape (d : Decoder) (body : String) : Except GoError ScrapeRequest :=
  match d.UnmarshalScrape body with
  | .error err => .error err
  | .ok req =>
    match validateRequired "ScrapeRequest" "URL" req.URL with
    | some err => .error err
    | none => .ok req

/-- Method `WebSearchHandler.Search`, on the raw body of a `POST /search`. -/
def WebSearchHandler.Search (h : WebSearchHandler) (d : Decoder) (w : World)
    (body : String) : Handled :=
  match BindJSONSearch d body with
  | .error _ =>
    { reply := ⟨StatusBadRequest, .H [("error", "invalid request")]⟩,
      invoked := [], sent := [] }
  | .ok req =>
    if req.Question == "" then
      { reply := ⟨StatusBadRequest, .H [("error", "question is required")]⟩,
        invoked := [], sent := [] }
    else
      let r := h.registry.Jina.ScrapeQuestion w req.Question
      match r.err with
      | some err =>
        { reply := ⟨StatusInternalServerError, .H [("error", err.Error)]⟩,
          invoked := [req.Question], sent := r.sent }
      | none =>
        { reply := ⟨StatusOK, .search { Content := r.ret, Question := req.Question }⟩,
          invoked := [req.Question], sent := r.sent }

/-- Method `WebSearchHandler.Scrape`, on the raw body of a `POST /scrape`. -/
def WebSearchHandler.Scrape (h : WebSearchHandler) (d : Decoder) (w : World)
    (body : String) : Handled :=
  match BindJSONScrape d body with
  | .error _ =>
    { reply := ⟨StatusBadRequest, .H [("error", "invalid request")]⟩,
      invoked := [], sent := [] }
  | .ok req =>
    if req.URL == "" then
      { reply := ⟨StatusBadRequest, .H [("error", "url is required")]⟩,
        invoked := [], sent := [] }
    else
      let r := h.registry.Jina.ScrapeURL w req.URL
      match r.err with
      | some err =>
        { reply := ⟨StatusInternalServerError, .H [("error", err.Error)]⟩,
          invoked := [req.URL], sent := r.sent }
      | none =>
        { reply := ⟨StatusOK, .scrape { Content := r.ret, URL := req.URL }⟩,
          invoked := [req.URL], sent := r.sent }

/-! ## Sample environments -/

/-- A world in which every target is accepted and every request is answered with status
200 and the body `"Paris"`. -/
def okWorld : World where
  urlError := fun _ => none
  Do := fun _ => .ok { StatusCode := 200, Body := .ok "Paris" }

/-- A world in which the remote service answers every request with status 503 and an
error page. -/
def errorPageWorld : World where
  urlError := fun _ => none
  Do := fun _ => .ok { StatusCode := 503, Body := .ok "Service Unavailable" }

/-- A world in which `http.NewRequest` rejects targets holding a control character
(here: a line feed), the transport refuses the host `down.invalid`, and the body of the
answer from `cut.invalid` cannot be read to its end. -/
def faultyWorld : World where
  urlError := fun url =>
    if url.data.contains '\n' then some (.leaf "net/url: invalid control character in URL")
    else none
  Do := fun req =>
    if req.URL == "https://r.jina.ai/down.invalid" then .error (.leaf "dial tcp: no such host")
    else if req.URL == "https://r.jina.ai/cut.invalid" then
      .ok { StatusCode := 200, Body := .error (.leaf "unexpected EOF") }
    else .ok { StatusCode := 200, Body := .ok "Paris" }

/-- A decoder that takes the whole body as the value of the field; the empty body stands
for a JSON object without the field, and the body `"?"` for one that is not JSON. -/
def plainDecoder : Decoder where
  UnmarshalSearch := fun body =>
    if body == "?" then .error (.leaf "invalid character") else .ok ⟨body⟩
  UnmarshalScrape := fun body =>
    if body == "?" then .error (.leaf "invalid character") else .ok ⟨body⟩

/-- A handler whose client has no API key configured. -/
def anonHandler : WebSearchHandler := ⟨⟨⟨⟨""⟩⟩⟩⟩

/-- A handler whose client has the API key `"k1"`. -/
def keyedHandler : WebSearchHandler := ⟨⟨⟨⟨"k1"⟩⟩⟩⟩

/-! ## Formatting lemmas -/

theorem Sprintf_reader (url : String) :
    Sprintf "https://r.jina.ai/%s" [url] = "https://r.jina.ai/" ++ url := by
  apply String.ext
  simp [Sprintf, doPrintf]

theorem Sprintf_search (question : String) :
    Sprintf "https://s.jina.ai/%s" [question] = "https://s.jina.ai/" ++ question := by
  apply String.ext
  simp [Sprintf, doPrintf]

theorem Errorf_creating (c : GoError) :
    Errorf "error creating request: %w" c
      = .wrap ("error creating request: " ++ c.Error) c := by
  unfold Errorf
  congr 1
  apply String.ext
  simp [Sprintf, doPrintf]

theorem Errorf_sending (c : GoError) :
    Errorf "error sending request: %w" c
      = .wrap ("error sending request: " ++ c.Error) c := by
  unfold Errorf
  congr 1
  apply String.ext
  simp [Sprintf, doPrintf]

theorem Errorf_reading (c : GoError) :
    Errorf "error reading response body: %w" c
      = .wrap ("error reading response body: " ++ c.Error) c := by
  unfold Errorf
  congr 1
  apply String.ext
  simp [Sprintf, doPrintf]

/-! ## The four paths of `requestWithApiKey` -/

theorem requestWithApiKey_unfold (w : World) (t k : String) :
    requestWithApiKey w t k =
      match w.urlError t with
      | some c => ⟨"", some (.wrap ("error creating request: " ++ c.Error) c), []⟩
      | none =>
        match w.Do (outbound t k) with
        | .error c =>
          ⟨"", some (.wrap ("error sending request: " ++ c.Error) c), [outbound t k]⟩
        | .ok resp =>
          match resp.Body with
          | .error c =>
            ⟨"", some (.wrap ("error reading response body: " ++ c.Error) c),
              [outbound t k]⟩
          | .ok b => ⟨b, none, [outbound t k]⟩ := by
  unfold requestWithApiKey NewRequest
  cases hu : w.urlError t with
  | some c => simp [Errorf_creating]
  | none =>
    simp only []
    show (match w.Do (outbound t k) with
      | .error err => _
      | .ok resp => _) = _
    cases hd : w.Do (outbound t k) with
    | error c => simp [Errorf_sending, outbound]
    | ok resp =>
      simp only []
      cases hb : resp.Body with
      | error c => simp [Errorf_reading, outbound]
      | ok b => simp [outbound]

theorem requestWithApiKey_creating (w : World) (t k : String) (c : GoError)
    (hu : w.urlError t = some c) :
    requestWithApiKey w t k
      = ⟨"", some (.wrap ("error creating request: " ++ c.Error) c), []⟩ := by
  rw [requestWithApiKey_unfold, hu]

theorem requestWithApiKey_sending (w : World) (t k : String) (c : GoError)
    (hu : w.urlError t = none) (hd : w.Do (outbound t k) = .error c) :
    requestWithApiKey w t k
      = ⟨"", some (.wrap ("error sending request: " ++ c.Error) c), [outbound t k]⟩ := by
  rw [requestWithApiKey_unfold, hu]
  simp only [hd]

theorem requestWithApiKey_reading (w : World) (t k : String) (resp : Response)
    (c : GoError) (hu : w.urlError t = none) (hd : w.Do (outbound t k) = .ok resp)
    (hb : resp.Body = .error c) :
    requestWithApiKey w t k
      = ⟨"", some (.wrap ("error reading response body: " ++ c.Error) c),
          [outbound t k]⟩ := by
  rw [requestWithApiKey_unfold, hu]
  simp only [hd, hb]

theorem requestWithApiKey_body (w : World) (t k : String) (resp : Response)
    (b : String) (hu : w.urlError t = none) (hd : w.Do (outbound t k) = .ok resp)
    (hb : resp.Body = .ok b) :
    requestWithApiKey w t k = ⟨b, none, [outbound t k]⟩ := by
  rw [requestWithApiKey_unfold, hu]
  simp only [hd, hb]

/-! ## The paths of the handlers -/

theorem Search_of_unbound (h : WebSearchHandler) (d : Decoder) (w : World) (body : String)
    (hq : ∀ req, d.UnmarshalSearch body = .ok req → req.Question = "") :
    h.Search d w body
      = ⟨⟨StatusBadRequest, .H [("error", "invalid request")]⟩, [], []⟩ := by
  unfold WebSearchHandler.Search BindJSONSearch
  cases hd : d.UnmarshalSearch body with
  | error e => rfl
  | ok req => simp [validateRequired, hq req hd]

theorem Scrape_of_unbound (h : WebSearchHandler) (d : Decoder) (w : World) (body : String)
    (hq : ∀ req, d.UnmarshalScrape body = .ok req → req.URL = "") :
    h.Scrape d w body
      = ⟨⟨StatusBadRequest, .H [("error", "invalid request")]⟩, [], []⟩ := by
  unfold WebSearchHandler.Scrape BindJSONScrape
  cases hd : d.UnmarshalScrape body with
  | error e => rfl
  | ok req => simp [validateRequired, hq req hd]

theorem Search_of_bound (h : WebSearchHandler) (d : Decoder) (w : World) (body v : String)
    (hd : d.UnmarshalSearch body = .ok ⟨v⟩) (hv : v ≠ "") :
    h.Search d w body =
      match (h.registry.Jina.ScrapeQuestion w v).err with
      | some err =>
        ⟨⟨StatusInternalServerError, .H [("error", err.Error)]⟩, [v],
          (h.registry.Jina.ScrapeQuestion w v).sent⟩
      | none =>
        ⟨⟨StatusOK, .search ⟨(h.registry.Jina.ScrapeQuestion w v).ret, v⟩⟩, [v],
          (h.registry.Jina.ScrapeQuestion w v).sent⟩ := by
  unfold WebSearchHandler.Search BindJSONSearch
  simp [hd, validateRequired, hv]

theorem Scrape_of_bound (h : WebSearchHandler) (d : Decoder) (w : World) (body v : String)
    (hd : d.UnmarshalScrape body = .ok ⟨v⟩) (hv : v ≠ "") :
    h.Scrape d w body =
      match (h.registry.Jina.ScrapeURL w v).err with
      | some err =>
        ⟨⟨StatusInternalServerError, .H [("error", err.Error)]⟩, [v],
          (h.registry.Jina.ScrapeURL w v).sent⟩
      | none =>
        ⟨⟨StatusOK, .scrape ⟨(h.registry.Jina.ScrapeURL w v).ret, v⟩⟩, [v],
          (h.registry.Jina.ScrapeURL w v).sent⟩ := by
  unfold WebSearchHandler.Scrape BindJSONScrape
  simp [hd, validateRequired, hv]

theorem ScrapeQuestion_eq (jc : Client) (w : World) (q : String) :
    jc.ScrapeQuestion w q = requestWithApiKey w ("https://s.jina.ai/" ++ q) jc.ApiKey.Value := by
  unfold Client.ScrapeQuestion Client.request
  rw [Sprintf_search]

theorem ScrapeURL_eq (jc : Client) (w : World) (u : String) :
    jc.ScrapeURL w u = requestWithApiKey w ("https://r.jina.ai/" ++ u) jc.ApiKey.Value := by
  unfold Client.ScrapeURL Client.request
  rw [Sprintf_reader]

theorem plainDecoder_search_empty :
    ∀ req, plainDecoder.UnmarshalSearch "" = .ok req → req.Question = "" := by
  intro req hreq
  simp [plainDecoder] at hreq
  rw [← hreq]

theorem plainDecoder_scrape_empty :
    ∀ req, plainDecoder.UnmarshalScrape "" = .ok req → req.URL = "" := by
  intro req hreq
  simp [plainDecoder] at hreq
  rw [← hreq]

/-! ## Validation -/

/-- C1: when the decoded `question` of a `POST /search` body is missing or empty (the body
does not decode, or decodes to a record whose `Question` is `""`), `Search` replies with
status 400, the client is not invoked, no outbound request is made, and the whole result
is the same for any two registries and any two behaviours of the remote side. -/
theorem search_empty_question_rejected (d : Decoder) (h₁ h₂ : WebSearchHandler)
    (w₁ w₂ : World) (body : String)
    (hq : ∀ req, d.UnmarshalSearch body = .ok req → req.Question = "") :
    (h₁.Search d w₁ body).reply.status = 400
      ∧ (h₁.Search d w₁ body).invoked = []
      ∧ (h₁.Search d w₁ body).sent.length = 0
      ∧ h₁.Search d w₁ body = h₂.Search d w₂ body := by
  rw [Search_of_unbound h₁ d w₁ body hq, Search_of_unbound h₂ d w₂ body hq]
  simp [StatusBadRequest]

theorem search_empty_question_rejected_witness :
    (∀ req, plainDecoder.UnmarshalSearch "" = .ok req → req.Question = "")
      ∧ (anonHandler.Search plainDecoder okWorld "").reply.status = 400
      ∧ (anonHandler.Search plainDecoder okWorld "").invoked = []
      ∧ (anonHandler.Search plainDecoder okWorld "").sent.length = 0
      ∧ anonHandler.Search plainDecoder okWorld ""
          = keyedHandler.Search plainDecoder faultyWorld "" :=
  ⟨plainDecoder_search_empty,
    search_empty_question_rejected plainDecoder anonHandler keyedHandler okWorld
      faultyWorld "" plainDecoder_search_empty⟩

/-- C2: when the decoded `url` of a `POST /scrape` body is missing or empty (the body does
not decode, or decodes to a record whose `URL` is `""`), `Scrape` replies with status 400,
the client is not invoked, no outbound request is made, and the whole result is the same
for any two registries and any two behaviours of the remote side. -/
theorem scrape_empty_url_rejected (d : Decoder) (h₁ h₂ : WebSearchHandler)
    (w₁ w₂ : World) (body : String)
    (hq : ∀ req, d.UnmarshalScrape body = .ok req → req.URL = "") :
    (h₁.Scrape d w₁ body).reply.status = 400
      ∧ (h₁.Scrape d w₁ body).invoked = []
      ∧ (h₁.Scrape d w₁ body).sent.length = 0
      ∧ h₁.Scrape d w₁ body = h₂.Scrape d w₂ body := by
  rw [Scrape_of_unbound h₁ d w₁ body hq, Scrape_of_unbound h₂ d w₂ body hq]
  simp [StatusBadRequest]

theorem scrape_empty_url_rejected_witness :
    (∀ req, plainDecoder.UnmarshalScrape "" = .ok req → req.URL = "")
      ∧ (anonHandler.Scrape plainDecoder okWorld "").reply.status = 400
      ∧ (anonHandler.Scrape plainDecoder okWorld "").invoked = []
      ∧ (anonHandler.Scrape plainDecoder okWorld "").sent.length = 0
      ∧ anonHandler.Scrape plainDecoder okWorld ""
          = keyedHandler.Scrape plainDecoder faultyWorld "" :=
  ⟨plainDecoder_scrape_empty,
    scrape_empty_url_rejected plainDecoder anonHandler keyedHandler okWorld
      faultyWorld "" plainDecoder_scrape_empty⟩

/-- C10: on each endpoint, every body whose required field is missing or empty after
decoding gets one and the same reply, whatever else the request, the registry or the
remote side are: status 400 with the body `error: invalid request`. -/
theorem missing_field_fixed_reply (d : Decoder) (h : WebSearchHandler) (w : World)
    (body : String) :
    ((∀ req, d.UnmarshalSearch body = .ok req → req.Question = "") →
        (h.Search d w body).reply = ⟨400, .H [("error", "invalid request")]⟩)
      ∧ ((∀ req, d.UnmarshalScrape body = .ok req → req.URL = "") →
        (h.Scrape d w body).reply = ⟨400, .H [("error", "invalid request")]⟩) := by
  constructor
  · intro hq
    rw [Search_of_unbound h d w body hq]
    rfl
  · intro hq
    rw [Scrape_of_unbound h d w body hq]
    rfl

theorem missing_field_fixed_reply_witness :
    (anonHandler.Search plainDecoder okWorld "").reply
        = ⟨400, .H [("error", "invalid request")]⟩
      ∧ (anonHandler.Search plainDecoder okWorld "?").reply
        = ⟨400, .H [("error", "invalid request")]⟩
      ∧ (keyedHandler.Scrape plainDecoder faultyWorld "").reply
        = ⟨400, .H [("error", "invalid request")]⟩ :=
  ⟨(missing_field_fixed_reply plainDecoder anonHandler okWorld "").1
      plainDecoder_search_empty,
    (missing_field_fixed_reply plainDecoder anonHandler okWorld "?").1
      (by intro req hreq; simp [plainDecoder] at hreq),
    (missing_field_fixed_reply plainDecoder keyedHandler faultyWorld "").2
      plainDecoder_scrape_empty⟩

/-! ## Targets and headers -/

theorem outbound_URL (t k : String) : (outbound t k).URL = t := by
  unfold outbound
  split <;> rfl

theorem outbound_Method (t k : String) : (outbound t k).Method = "GET" := by
  unfold outbound
  split <;> rfl

theorem outbound_Authorization (t k : String) :
    (outbound t k).Header.Lookup "Authorization"
      = if k = "" then none else some ("Bearer " ++ k) := by
  unfold outbound
  by_cases hk : k = "" <;> simp [hk, Header.Set, Header.Lookup]

theorem requestWithApiKey_sent (w : World) (t k : String) :
    (requestWithApiKey w t k).sent
      = if (w.urlError t).isSome then [] else [outbound t k] := by
  rw [requestWithApiKey_unfold]
  cases hu : w.urlError t with
  | some c => rfl
  | none =>
    simp only []
    cases hd : w.Do (outbound t k) with
    | error c => rfl
    | ok resp =>
      simp only []
      cases hb : resp.Body <;> rfl

theorem requestWithApiKey_targets (w : World) (t k : String) :
    (requestWithApiKey w t k).sent.map (fun r => r.URL)
      = if (w.urlError t).isSome then [] else [t] := by
  rw [requestWithApiKey_sent]
  split <;> simp [outbound_URL]

/-- C3: the target `ScrapeQuestion` and `ScrapeQuestionWithApiKey` build for a question
`q` is `"https://s.jina.ai/"` followed by the characters of `q`, unchanged: both run
`requestWithApiKey` on that string, and it is the target of every request they send.
For `"What is the capital of France?"` the target keeps its spaces and its `?`. -/
theorem search_target_verbatim (w : World) (jc : Client) (q key : String) :
    Sprintf "https://s.jina.ai/%s" [q] = "https://s.jina.ai/" ++ q
      ∧ (Sprintf "https://s.jina.ai/%s" [q]).data = "https://s.jina.ai/".data ++ q.data
      ∧ jc.ScrapeQuestion w q
          = requestWithApiKey w ("https://s.jina.ai/" ++ q) jc.ApiKey.Value
      ∧ ScrapeQuestionWithApiKey w q key
          = requestWithApiKey w ("https://s.jina.ai/" ++ q) key
      ∧ (jc.ScrapeQuestion w q).sent.map (fun r => r.URL)
          = (if (w.urlError ("https://s.jina.ai/" ++ q)).isSome then []
             else ["https://s.jina.ai/" ++ q])
      ∧ (ScrapeQuestionWithApiKey w q key).sent.map (fun r => r.URL)
          = (if (w.urlError ("https://s.jina.ai/" ++ q)).isSome then []
             else ["https://s.jina.ai/" ++ q])
      ∧ (jc.ScrapeQuestion okWorld "What is the capital of France?").sent.map
            (fun r => r.URL)
          = ["https://s.jina.ai/What is the capital of France?"]
      ∧ (ScrapeQuestionWithApiKey okWorld "What is the capital of France?" key).sent.map
            (fun r => r.URL)
          = ["https://s.jina.ai/What is the capital of France?"] := by
  have hkey : ∀ x : String, ScrapeQuestionWithApiKey w x key
      = requestWithApiKey w ("https://s.jina.ai/" ++ x) key := by
    intro x
    unfold ScrapeQuestionWithApiKey
    rw [Sprintf_search]
  have hkey₀ : ScrapeQuestionWithApiKey okWorld "What is the capital of France?" key
      = requestWithApiKey okWorld ("https://s.jina.ai/" ++ "What is the capital of France?")
          key := by
    unfold ScrapeQuestionWithApiKey
    rw [Sprintf_search]
  refine ⟨Sprintf_search q, ?_, ScrapeQuestion_eq jc w q, hkey q, ?_, ?_, ?_, ?_⟩
  · rw [Sprintf_search, String.data_append]
  · rw [ScrapeQuestion_eq, requestWithApiKey_targets]
  · rw [hkey, requestWithApiKey_targets]
  · rw [ScrapeQuestion_eq, requestWithApiKey_targets]
    simp [okWorld]
  · rw [hkey₀, requestWithApiKey_targets]
    simp [okWorld]

/-- C4: the target `ScrapeURL` and `ScrapeURLWithApiKey` build for a url `u` is
`"https://r.jina.ai/"` followed by the characters of `u`, unchanged: both run
`requestWithApiKey` on that string, and it is the target of every request they send.
For `"https://example.com"` the target is `"https://r.jina.ai/https://example.com"`. -/
theorem reader_target_verbatim (w : World) (jc : Client) (u key : String) :
    Sprintf "https://r.jina.ai/%s" [u] = "https://r.jina.ai/" ++ u
      ∧ (Sprintf "https://r.jina.ai/%s" [u]).data = "https://r.jina.ai/".data ++ u.data
      ∧ jc.ScrapeURL w u
          = requestWithApiKey w ("https://r.jina.ai/" ++ u) jc.ApiKey.Value
      ∧ ScrapeURLWithApiKey w u key
          = requestWithApiKey w ("https://r.jina.ai/" ++ u) key
      ∧ (jc.ScrapeURL w u).sent.map (fun r => r.URL)
          = (if (w.urlError ("https://r.jina.ai/" ++ u)).isSome then []
             else ["https://r.jina.ai/" ++ u])
      ∧ (ScrapeURLWithApiKey w u key).sent.map (fun r => r.URL)
          = (if (w.urlError ("https://r.jina.ai/" ++ u)).isSome then []
             else ["https://r.jina.ai/" ++ u])
      ∧ (jc.ScrapeURL okWorld "https://example.com").sent.map (fun r => r.URL)
          = ["https://r.jina.ai/https://example.com"]
      ∧ (ScrapeURLWithApiKey okWorld "https://example.com" key).sent.map
            (fun r => r.URL)
          = ["https://r.jina.ai/https://example.com"] := by
  have hkey : ∀ x : String, ScrapeURLWithApiKey w x key
      = requestWithApiKey w ("https://r.jina.ai/" ++ x) key := by
    intro x
    unfold ScrapeURLWithApiKey
    rw [Sprintf_reader]
  have hkey₀ : ScrapeURLWithApiKey okWorld "https://example.com" key
      = requestWithApiKey okWorld ("https://r.jina.ai/" ++ "https://example.com") key := by
    unfold ScrapeURLWithApiKey
    rw [Sprintf_reader]
  refine ⟨Sprintf_reader u, ?_, ScrapeURL_eq jc w u, hkey u, ?_, ?_, ?_, ?_⟩
  · rw [Sprintf_reader, String.data_append]
  · rw [ScrapeURL_eq, requestWithApiKey_targets]
  · rw [hkey, requestWithApiKey_targets]
  · rw [ScrapeURL_eq, requestWithApiKey_targets]
    simp [okWorld]
  · rw [hkey₀, requestWithApiKey_targets]
    simp [okWorld]

theorem okWorld_sends (t k : String) :
    outbound t k ∈ (requestWithApiKey okWorld t k).sent := by
  rw [requestWithApiKey_sent]
  simp [okWorld]

/-- C7: every request `requestWithApiKey` sends for a target and a key `k` carries an
`Authorization` header if and only if `k` is not empty, and then its value is `"Bearer "`
followed by `k`; a request is sent whenever the target is accepted.  `ScrapeURL` and
`ScrapeQuestion` pass the configured `ApiKey.Value` as the key, so with an empty
configured key their requests carry no `Authorization` header. -/
theorem bearer_header_iff_key (w : World) (jc : Client) (target k u q : String) :
    (∀ req ∈ (requestWithApiKey w target k).sent,
        ((req.Header.Lookup "Authorization").isSome ↔ k ≠ "")
          ∧ (k ≠ "" → req.Header.Lookup "Authorization" = some ("Bearer " ++ k)))
      ∧ (w.urlError target = none → (requestWithApiKey w target k).sent.length = 1)
      ∧ jc.ScrapeURL w u
          = requestWithApiKey w (Sprintf "https://r.jina.ai/%s" [u]) jc.ApiKey.Value
      ∧ jc.ScrapeQuestion w q
          = requestWithApiKey w (Sprintf "https://s.jina.ai/%s" [q]) jc.ApiKey.Value
      ∧ (jc.ApiKey.Value = "" →
          ∀ req ∈ (jc.ScrapeURL w u).sent ++ (jc.ScrapeQuestion w q).sent,
            req.Header.Lookup "Authorization" = none) := by
  have hsent : ∀ (t k₀ : String) (req : Request), req ∈ (requestWithApiKey w t k₀).sent →
      req.Header.Lookup "Authorization" = if k₀ = "" then none else some ("Bearer " ++ k₀) := by
    intro t k₀ req hreq
    rw [requestWithApiKey_sent] at hreq
    split at hreq
    · simp at hreq
    · simp only [List.mem_singleton] at hreq
      rw [hreq, outbound_Authorization]
  refine ⟨?_, ?_, rfl, rfl, ?_⟩
  · intro req hreq
    rw [hsent target k req hreq]
    by_cases hk : k = "" <;> simp [hk]
  · intro hu
    rw [requestWithApiKey_sent, hu]
    rfl
  · intro hv req hreq
    rcases List.mem_append.mp hreq with hmem | hmem
    · have := hsent _ _ req hmem
      rw [this, hv]
      rfl
    · have := hsent _ _ req hmem
      rw [this, hv]
      rfl

theorem bearer_header_iff_key_witness :
    outbound "https://r.jina.ai/x" "k1"
        ∈ (requestWithApiKey okWorld "https://r.jina.ai/x" "k1").sent
      ∧ (((outbound "https://r.jina.ai/x" "k1").Header.Lookup "Authorization").isSome
          ↔ "k1" ≠ "")
      ∧ (outbound "https://r.jina.ai/x" "k1").Header.Lookup "Authorization"
          = some ("Bearer " ++ "k1")
      ∧ (requestWithApiKey okWorld "https://r.jina.ai/x" "k1").sent.length = 1
      ∧ (∀ req ∈ (Client.ScrapeURL ⟨⟨""⟩⟩ okWorld "x").sent
            ++ (Client.ScrapeQuestion ⟨⟨""⟩⟩ okWorld "y").sent,
          req.Header.Lookup "Authorization" = none) :=
  ⟨okWorld_sends _ _,
    ((bearer_header_iff_key okWorld ⟨⟨"k1"⟩⟩ "https://r.jina.ai/x" "k1" "x" "y").1
      _ (okWorld_sends _ _)).1,
    ((bearer_header_iff_key okWorld ⟨⟨"k1"⟩⟩ "https://r.jina.ai/x" "k1" "x" "y").1
      _ (okWorld_sends _ _)).2 (by decide),
    (bearer_header_iff_key okWorld ⟨⟨"k1"⟩⟩ "https://r.jina.ai/x" "k1" "x" "y").2.1 rfl,
    (bearer_header_iff_key okWorld ⟨⟨""⟩⟩ "https://r.jina.ai/x" "k1" "x" "y").2.2.2.2 rfl⟩

/-! ## Outcomes of the outbound call -/

theorem requestWithApiKey_err_shape (w : World) (t k : String) (e : GoError)
    (he : (requestWithApiKey w t k).err = some e) :
    (requestWithApiKey w t k).ret = "" ∧
    ∃ c, e.Unwrap = some c ∧
      ((w.urlError t = some c ∧ e.Error = "error creating request: " ++ c.Error)
        ∨ (w.urlError t = none ∧ w.Do (outbound t k) = .error c
            ∧ e.Error = "error sending request: " ++ c.Error)
        ∨ (w.urlError t = none ∧ ∃ resp, w.Do (outbound t k) = .ok resp
            ∧ resp.Body = .error c
            ∧ e.Error = "error reading response body: " ++ c.Error)) := by
  rw [requestWithApiKey_unfold] at he ⊢
  cases hu : w.urlError t with
  | some c =>
    simp only [hu, Option.some.injEq] at he ⊢
    subst he
    exact ⟨trivial, c, rfl, Or.inl ⟨rfl, rfl⟩⟩
  | none =>
    simp only [hu] at he ⊢
    cases hd : w.Do (outbound t k) with
    | error c =>
      simp only [hd, Option.some.injEq] at he ⊢
      subst he
      exact ⟨trivial, c, rfl, Or.inr (Or.inl ⟨trivial, rfl, rfl⟩)⟩
    | ok resp =>
      simp only [hd] at he ⊢
      cases hb : resp.Body with
      | error c =>
        simp only [hb, Option.some.injEq] at he ⊢
        subst he
        exact ⟨trivial, c, rfl, Or.inr (Or.inr ⟨trivial, resp, rfl, hb, rfl⟩)⟩
      | ok b =>
        simp only [hb] at he
        cases he

/-- C9: `requestWithApiKey` on each of its four paths.  A rejected target gives the empty
result, the error `error creating request: ` followed by the cause's message, wrapping
the cause, and sends nothing; a transport error gives the empty result and
`error sending request: ` with the cause; a body that cannot be read gives the empty
result and `error reading response body: ` with the cause; otherwise the body is returned
with no error.  An error is returned in these three cases and in no other. -/
theorem requestWithApiKey_failures (w : World) (t k : String) :
    (∀ c, w.urlError t = some c →
        requestWithApiKey w t k
          = ⟨"", some (.wrap ("error creating request: " ++ c.Error) c), []⟩)
      ∧ (∀ c, w.urlError t = none → w.Do (outbound t k) = .error c →
        requestWithApiKey w t k
          = ⟨"", some (.wrap ("error sending request: " ++ c.Error) c), [outbound t k]⟩)
      ∧ (∀ resp c, w.urlError t = none → w.Do (outbound t k) = .ok resp →
        resp.Body = .error c →
        requestWithApiKey w t k
          = ⟨"", some (.wrap ("error reading response body: " ++ c.Error) c),
              [outbound t k]⟩)
      ∧ (∀ resp b, w.urlError t = none → w.Do (outbound t k) = .ok resp →
        resp.Body = .ok b →
        requestWithApiKey w t k = ⟨b, none, [outbound t k]⟩)
      ∧ ((requestWithApiKey w t k).err ≠ none ↔
          ((∃ c, w.urlError t = some c)
            ∨ (w.urlError t = none ∧ ∃ c, w.Do (outbound t k) = .error c)
            ∨ (w.urlError t = none ∧ ∃ resp c, w.Do (outbound t k) = .ok resp
                ∧ resp.Body = .error c)))
      ∧ (∀ e, (requestWithApiKey w t k).err = some e →
          (requestWithApiKey w t k).ret = "" ∧ ∃ c, e.Unwrap = some c) := by
  refine ⟨fun c hu => requestWithApiKey_creating w t k c hu,
    fun c hu hd => requestWithApiKey_sending w t k c hu hd,
    fun resp c hu hd hb => requestWithApiKey_reading w t k resp c hu hd hb,
    fun resp b hu hd hb => requestWithApiKey_body w t k resp b hu hd hb, ?_, ?_⟩
  · constructor
    · intro hne
      obtain ⟨e, he⟩ := Option.ne_none_iff_exists'.mp hne
      obtain ⟨_, c, _, hc⟩ := requestWithApiKey_err_shape w t k e he
      rcases hc with ⟨hu, _⟩ | ⟨hu, hd, _⟩ | ⟨hu, resp, hd, hb, _⟩
      · exact Or.inl ⟨c, hu⟩
      · exact Or.inr (Or.inl ⟨hu, c, hd⟩)
      · exact Or.inr (Or.inr ⟨hu, resp, c, hd, hb⟩)
    · rintro (⟨c, hu⟩ | ⟨hu, c, hd⟩ | ⟨hu, resp, c, hd, hb⟩)
      · rw [requestWithApiKey_creating w t k c hu]
        simp
      · rw [requestWithApiKey_sending w t k c hu hd]
        simp
      · rw [requestWithApiKey_reading w t k resp c hu hd hb]
        simp
  · intro e he
    obtain ⟨hret, c, hc, _⟩ := requestWithApiKey_err_shape w t k e he
    exact ⟨hret, c, hc⟩

theorem requestWithApiKey_failures_witness :
    requestWithApiKey faultyWorld "https://r.jina.ai/a\nb" ""
        = ⟨"", some (.wrap ("error creating request: "
            ++ (GoError.leaf "net/url: invalid control character in URL").Error)
            (.leaf "net/url: invalid control character in URL")), []⟩
      ∧ requestWithApiKey faultyWorld "https://r.jina.ai/down.invalid" ""
        = ⟨"", some (.wrap ("error sending request: "
            ++ (GoError.leaf "dial tcp: no such host").Error)
            (.leaf "dial tcp: no such host")),
            [outbound "https://r.jina.ai/down.invalid" ""]⟩
      ∧ requestWithApiKey faultyWorld "https://r.jina.ai/cut.invalid" ""
        = ⟨"", some (.wrap ("error reading response body: "
            ++ (GoError.leaf "unexpected EOF").Error) (.leaf "unexpected EOF")),
            [outbound "https://r.jina.ai/cut.invalid" ""]⟩
      ∧ requestWithApiKey faultyWorld "https://r.jina.ai/x" ""
        = ⟨"Paris", none, [outbound "https://r.jina.ai/x" ""]⟩ :=
  ⟨(requestWithApiKey_failures faultyWorld "https://r.jina.ai/a\nb" "").1 _ (by decide),
    (requestWithApiKey_failures faultyWorld "https://r.jina.ai/down.invalid" "").2.1 _
      (by decide) (by simp [faultyWorld, outbound]),
    (requestWithApiKey_failures faultyWorld "https://r.jina.ai/cut.invalid" "").2.2.1
      ⟨200, .error (.leaf "unexpected EOF")⟩ _ (by decide) (by simp [faultyWorld, outbound]) rfl,
    (requestWithApiKey_failures faultyWorld "https://r.jina.ai/x" "").2.2.2.1
      ⟨200, .ok "Paris"⟩ _ (by decide) (by simp [faultyWorld, outbound]) rfl⟩

/-! ## Replies of the handlers after a dispatch -/

theorem Search_of_outcome (h : WebSearchHandler) (d : Decoder) (w : World)
    (body v : String) (o : Outcome) (hd : d.UnmarshalSearch body = .ok ⟨v⟩) (hv : v ≠ "")
    (ho : requestWithApiKey w ("https://s.jina.ai/" ++ v) h.registry.Jina.ApiKey.Value = o) :
    h.Search d w body =
      match o.err with
      | some err => ⟨⟨StatusInternalServerError, .H [("error", err.Error)]⟩, [v], o.sent⟩
      | none => ⟨⟨StatusOK, .search ⟨o.ret, v⟩⟩, [v], o.sent⟩ := by
  rw [Search_of_bound h d w body v hd hv, ScrapeQuestion_eq, ho]

theorem Scrape_of_outcome (h : WebSearchHandler) (d : Decoder) (w : World)
    (body v : String) (o : Outcome) (hd : d.UnmarshalScrape body = .ok ⟨v⟩) (hv : v ≠ "")
    (ho : requestWithApiKey w ("https://r.jina.ai/" ++ v) h.registry.Jina.ApiKey.Value = o) :
    h.Scrape d w body =
      match o.err with
      | some err => ⟨⟨StatusInternalServerError, .H [("error", err.Error)]⟩, [v], o.sent⟩
      | none => ⟨⟨StatusOK, .scrape ⟨o.ret, v⟩⟩, [v], o.sent⟩ := by
  rw [Scrape_of_bound h d w body v hd hv, ScrapeURL_eq, ho]

theorem suffix_of_message (p : String) (c e : GoError) (he : e.Error = p ++ c.Error) :
    c.Error.data <:+ e.Error.data := by
  rw [he, String.data_append]
  exact List.suffix_append _ _

/-- C5: for a body that decodes to a non-empty field value `v`, when the target is
accepted, `client.Do` answers and the body of the answer reads as `b`, `Search` replies
with status 200 and the record `content = b`, `question = v`, and `Scrape` with status 200
and the record `content = b`, `url = v`. -/
theorem success_relays_body (h : WebSearchHandler) (d : Decoder) (w : World)
    (body v b : String) (resp : Response) :
    (d.UnmarshalSearch body = .ok ⟨v⟩ → v ≠ "" →
        w.urlError ("https://s.jina.ai/" ++ v) = none →
        w.Do (outbound ("https://s.jina.ai/" ++ v) h.registry.Jina.ApiKey.Value) = .ok resp →
        resp.Body = .ok b →
        (h.Search d w body).reply = ⟨200, .search { Content := b, Question := v }⟩)
      ∧ (d.UnmarshalScrape body = .ok ⟨v⟩ → v ≠ "" →
        w.urlError ("https://r.jina.ai/" ++ v) = none →
        w.Do (outbound ("https://r.jina.ai/" ++ v) h.registry.Jina.ApiKey.Value) = .ok resp →
        resp.Body = .ok b →
        (h.Scrape d w body).reply = ⟨200, .scrape { Content := b, URL := v }⟩) := by
  constructor
  · intro hd hv hu hdo hb
    rw [Search_of_outcome h d w body v _ hd hv
      (requestWithApiKey_body w _ _ resp b hu hdo hb)]
    rfl
  · intro hd hv hu hdo hb
    rw [Scrape_of_outcome h d w body v _ hd hv
      (requestWithApiKey_body w _ _ resp b hu hdo hb)]
    rfl

theorem success_relays_body_witness :
    (keyedHandler.Search plainDecoder okWorld "What is the capital of France?").reply
        = ⟨200, .search { Content := "Paris", Question := "What is the capital of France?" }⟩
      ∧ (anonHandler.Scrape plainDecoder okWorld "https://example.com").reply
        = ⟨200, .scrape { Content := "Paris", URL := "https://example.com" }⟩ :=
  ⟨(success_relays_body keyedHandler plainDecoder okWorld "What is the capital of France?"
      "What is the capital of France?" "Paris" ⟨200, .ok "Paris"⟩).1
      (by simp [plainDecoder]) (by decide) rfl rfl rfl,
    (success_relays_body anonHandler plainDecoder okWorld "https://example.com"
      "https://example.com" "Paris" ⟨200, .ok "Paris"⟩).2
      (by simp [plainDecoder]) (by decide) rfl rfl rfl⟩

/-- C8: once `client.Do` has answered, the status code of the answer plays no part: for
every status and every readable body `b`, `requestWithApiKey` returns `b` with no error,
and a valid `/search` or `/scrape` request gets status 200 with `content = b`. -/
theorem status_not_inspected (h : WebSearchHandler) (d : Decoder) (w : World)
    (t k body v b : String) (status : Nat) :
    (w.urlError t = none → w.Do (outbound t k) = .ok ⟨status, .ok b⟩ →
        requestWithApiKey w t k = ⟨b, none, [outbound t k]⟩)
      ∧ (d.UnmarshalSearch body = .ok ⟨v⟩ → v ≠ "" →
        w.urlError ("https://s.jina.ai/" ++ v) = none →
        w.Do (outbound ("https://s.jina.ai/" ++ v) h.registry.Jina.ApiKey.Value)
          = .ok ⟨status, .ok b⟩ →
        (h.Search d w body).reply = ⟨200, .search { Content := b, Question := v }⟩)
      ∧ (d.UnmarshalScrape body = .ok ⟨v⟩ → v ≠ "" →
        w.urlError ("https://r.jina.ai/" ++ v) = none →
        w.Do (outbound ("https://r.jina.ai/" ++ v) h.registry.Jina.ApiKey.Value)
          = .ok ⟨status, .ok b⟩ →
        (h.Scrape d w body).reply = ⟨200, .scrape { Content := b, URL := v }⟩) := by
  refine ⟨?_, ?_, ?_⟩
  · intro hu hdo
    exact requestWithApiKey_body w t k _ b hu hdo rfl
  · intro hd hv hu hdo
    rw [Search_of_outcome h d w body v _ hd hv
      (requestWithApiKey_body w _ _ _ b hu hdo rfl)]
    rfl
  · intro hd hv hu hdo
    rw [Scrape_of_outcome h d w body v _ hd hv
      (requestWithApiKey_body w _ _ _ b hu hdo rfl)]
    rfl

theorem status_not_inspected_witness :
    requestWithApiKey errorPageWorld "https://r.jina.ai/x" "k1"
        = ⟨"Service Unavailable", none, [outbound "https://r.jina.ai/x" "k1"]⟩
      ∧ (anonHandler.Search plainDecoder errorPageWorld "q").reply
        = ⟨200, .search { Content := "Service Unavailable", Question := "q" }⟩
      ∧ (anonHandler.Scrape plainDecoder errorPageWorld "u").reply
        = ⟨200, .scrape { Content := "Service Unavailable", URL := "u" }⟩ :=
  ⟨(status_not_inspected anonHandler plainDecoder errorPageWorld "https://r.jina.ai/x"
      "k1" "q" "q" "Service Unavailable" 503).1 rfl rfl,
    (status_not_inspected anonHandler plainDecoder errorPageWorld "https://r.jina.ai/x"
      "k1" "q" "q" "Service Unavailable" 503).2.1 (by simp [plainDecoder]) (by decide)
      rfl rfl,
    (status_not_inspected anonHandler plainDecoder errorPageWorld "https://r.jina.ai/x"
      "k1" "u" "u" "Service Unavailable" 503).2.2 (by simp [plainDecoder]) (by decide)
      rfl rfl⟩

/-- C6: for a body that decodes to a non-empty field value `v`, when the client call
returns an error `e`, `Search` (and likewise `Scrape`) replies with status 500 and the
body `error: m` with `m` the message of `e`; the reply is not a 200 and holds no response
record; `e` wraps the failure reported by the environment (a rejected target, a transport
error or an unreadable body) and `m` ends with the message of that failure. -/
theorem dispatch_failure_500 (h : WebSearchHandler) (d : Decoder) (w : World)
    (body v : String) (e : GoError) :
    (d.UnmarshalSearch body = .ok ⟨v⟩ → v ≠ "" →
        (h.registry.Jina.ScrapeQuestion w v).err = some e →
        (h.Search d w body).reply = ⟨500, .H [("error", e.Error)]⟩
          ∧ (h.Search d w body).reply.status ≠ 200
          ∧ (∀ r, (h.Search d w body).reply.body ≠ .search r)
          ∧ ∃ c, e.Unwrap = some c ∧ c.Error.data <:+ e.Error.data
              ∧ (w.urlError ("https://s.jina.ai/" ++ v) = some c
                ∨ w.Do (outbound ("https://s.jina.ai/" ++ v) h.registry.Jina.ApiKey.Value)
                    = .error c
                ∨ ∃ resp,
                    w.Do (outbound ("https://s.jina.ai/" ++ v) h.registry.Jina.ApiKey.Value)
                      = .ok resp ∧ resp.Body = .error c))
      ∧ (d.UnmarshalScrape body = .ok ⟨v⟩ → v ≠ "" →
        (h.registry.Jina.ScrapeURL w v).err = some e →
        (h.Scrape d w body).reply = ⟨500, .H [("error", e.Error)]⟩
          ∧ (h.Scrape d w body).reply.status ≠ 200
          ∧ (∀ r, (h.Scrape d w body).reply.body ≠ .scrape r)
          ∧ ∃ c, e.Unwrap = some c ∧ c.Error.data <:+ e.Error.data
              ∧ (w.urlError ("https://r.jina.ai/" ++ v) = some c
                ∨ w.Do (outbound ("https://r.jina.ai/" ++ v) h.registry.Jina.ApiKey.Value)
                    = .error c
                ∨ ∃ resp,
                    w.Do (outbound ("https://r.jina.ai/" ++ v) h.registry.Jina.ApiKey.Value)
                      = .ok resp ∧ resp.Body = .error c)) := by
  constructor
  · intro hd hv he
    have hreply : (h.Search d w body).reply = ⟨500, .H [("error", e.Error)]⟩ := by
      rw [Search_of_bound h d w body v hd hv, he]
      rfl
    rw [ScrapeQuestion_eq] at he
    obtain ⟨_, c, hc, hcase⟩ := requestWithApiKey_err_shape w _ _ e he
    refine ⟨hreply, ?_, ?_, c, hc, ?_, ?_⟩
    · rw [hreply]
      simp
    · intro r
      rw [hreply]
      simp
    · rcases hcase with ⟨_, hm⟩ | ⟨_, _, hm⟩ | ⟨_, _, _, _, hm⟩ <;>
        exact suffix_of_message _ c e hm
    · rcases hcase with ⟨hu, _⟩ | ⟨_, hdo, _⟩ | ⟨_, resp, hdo, hb, _⟩
      · exact Or.inl hu
      · exact Or.inr (Or.inl hdo)
      · exact Or.inr (Or.inr ⟨resp, hdo, hb⟩)
  · intro hd hv he
    have hreply : (h.Scrape d w body).reply = ⟨500, .H [("error", e.Error)]⟩ := by
      rw [Scrape_of_bound h d w body v hd hv, he]
      rfl
    rw [ScrapeURL_eq] at he
    obtain ⟨_, c, hc, hcase⟩ := requestWithApiKey_err_shape w _ _ e he
    refine ⟨hreply, ?_, ?_, c, hc, ?_, ?_⟩
    · rw [hreply]
      simp
    · intro r
      rw [hreply]
      simp
    · rcases hcase with ⟨_, hm⟩ | ⟨_, _, hm⟩ | ⟨_, _, _, _, hm⟩ <;>
        exact suffix_of_message _ c e hm
    · rcases hcase with ⟨hu, _⟩ | ⟨_, hdo, _⟩ | ⟨_, resp, hdo, hb, _⟩
      · exact Or.inl hu
      · exact Or.inr (Or.inl hdo)
      · exact Or.inr (Or.inr ⟨resp, hdo, hb⟩)

theorem faultyWorld_scrape_down :
    (anonHandler.registry.Jina.ScrapeURL faultyWorld "down.invalid").err
      = some (.wrap "error sending request: dial tcp: no such host"
          (.leaf "dial tcp: no such host")) := by
  rw [ScrapeURL_eq, requestWithApiKey_sending faultyWorld _ _
    (.leaf "dial tcp: no such host") (by decide)
    (by simp [faultyWorld, outbound_URL])]
  simp only [GoError.Error]
  decide

theorem faultyWorld_search_control :
    (anonHandler.registry.Jina.ScrapeQuestion faultyWorld "a\nb").err
      = some (.wrap "error creating request: net/url: invalid control character in URL"
          (.leaf "net/url: invalid control character in URL")) := by
  rw [ScrapeQuestion_eq, requestWithApiKey_creating faultyWorld _ _
    (.leaf "net/url: invalid control character in URL") (by decide)]
  simp only [GoError.Error]
  decide

theorem dispatch_failure_500_witness :
    (anonHandler.Search plainDecoder faultyWorld "a\nb").reply
        = ⟨500, .H [("error",
            "error creating request: net/url: invalid control character in URL")]⟩
      ∧ (anonHandler.Scrape plainDecoder faultyWorld "down.invalid").reply
        = ⟨500, .H [("error", "error sending request: dial tcp: no such host")]⟩ :=
  ⟨((dispatch_failure_500 anonHandler plainDecoder faultyWorld "a\nb" "a\nb"
      (.wrap "error creating request: net/url: invalid control character in URL"
        (.leaf "net/url: invalid control character in URL"))).1
      (by simp [plainDecoder]) (by decide) faultyWorld_search_control).1,
    ((dispatch_failure_500 anonHandler plainDecoder faultyWorld "down.invalid"
      "down.invalid"
      (.wrap "error sending request: dial tcp: no such host"
        (.leaf "dial tcp: no such host"))).2
      (by simp [plainDecoder]) (by decide) faultyWorld_scrape_down).1⟩

end Fabric
